import Mathlib

/-!
Shallow embedding of `src/utils/notifications.ts` (the `NotificationService`
object of the ToDo-App repository).

The service talks to two external collaborators:
  * `Platform.OS` from react-native, modelled by the `OS` inductive;
  * the expo-notifications module (the Platform Scheduling Port of the spec),
    modelled by an explicit pending-request list plus a `Platform` record
    describing how each underlying platform call behaves (its permission
    answers and which calls throw).

Every operation is modelled as a pure function returning its JS result,
the platform's new pending set, and the trace of Platform Scheduling Port
calls it issued, in order.  JS promise rejections (thrown errors) of a
platform call are modelled by `Except Unit` results / boolean throw flags;
the service's own `try/catch` blocks become the corresponding branches.
-/

namespace ToDo

/-- The react-native `Platform.OS` values the source distinguishes. -/
inductive OS
  | web
  | ios
  | android
deriving DecidableEq, Repr

/-- Permission status strings returned by the expo-notifications permission
calls (`'granted'`, `'denied'`, `'undetermined'`). -/
inductive PermStatus
  | granted
  | denied
  | undetermined
deriving DecidableEq, Repr

/-- The task record shape the service consumes: `{id, title, date, time}`
(`src/types/Task` fields used by `notifications.ts`). -/
structure Task where
  id : String
  title : String
  date : String
  time : String
deriving DecidableEq, Repr

/-- The notification content the service builds: title, body and the
`data: {taskId, taskTitle}` metadata.  A pending request restored from the
platform may lack the metadata fields, hence the `Option`s (JS `data?.taskId`). -/
structure NotificationContent where
  title : String
  body : String
  dataTaskId : Option String
  dataTaskTitle : Option String
deriving DecidableEq, Repr

/-- A platform-pending scheduled notification request: identifier assigned by
the platform, content, and the trigger instant in epoch milliseconds. -/
structure NotificationRequest where
  identifier : String
  content : NotificationContent
  trigger : Nat
deriving DecidableEq, Repr

/-- One call on the Platform Scheduling Port (the expo-notifications API). -/
inductive PortCall
  | getPermissions
  | requestPermission
  | create (content : NotificationContent) (trigger : Nat)
  | cancel (identifier : String)
  | cancelAll
  | getAllScheduled
  | addResponseListener
deriving DecidableEq, Repr

/-- The behaviour of the host platform during one sequence of calls: the OS,
the results of the permission calls (`Except.error` models a rejected
promise), and which scheduling calls throw. -/
structure Platform where
  os : OS
  getPermissionsResult : Except Unit PermStatus
  requestPermissionsResult : Except Unit PermStatus
  iosSubRequestThrows : Bool
  createThrows : Bool
  cancelThrows : String → Bool
  cancelAllThrows : Bool
  listThrows : Bool

/-- `NotificationService.requestPermissions` (notifications.ts lines 15-51):
returns `true` at once on web; otherwise reads the existing status, prompts
once if it is not `granted`, fires a best-effort iOS sub-permission request
(its failure caught and swallowed), and returns whether the final primary
status is `granted`; any uncaught failure resolves to `false` via the outer
catch.  Result: the returned boolean and the trace of port calls made. -/
def requestPermissions (p : Platform) : Bool × List PortCall :=
  if p.os = OS.web then
    (true, [])
  else
    match p.getPermissionsResult with
    | Except.error _ => (false, [PortCall.getPermissions])
    | Except.ok existingStatus =>
      if existingStatus ≠ PermStatus.granted then
        match p.requestPermissionsResult with
        | Except.error _ => (false, [PortCall.getPermissions, PortCall.requestPermission])
        | Except.ok finalStatus =>
          if p.os = OS.ios ∧ finalStatus = PermStatus.granted then
            (true, [PortCall.getPermissions, PortCall.requestPermission,
                    PortCall.requestPermission])
          else
            (decide (finalStatus = PermStatus.granted),
             [PortCall.getPermissions, PortCall.requestPermission])
      else
        if p.os = OS.ios then
          (true, [PortCall.getPermissions, PortCall.requestPermission])
        else
          (true, [PortCall.getPermissions])

/-- Models ECMAScript digit reading: the numeric value of a decimal digit. -/
def digitVal (c : Char) : Option Nat :=
  if c.isDigit then some (c.toNat - 48) else none

/-- Two decimal digits as a number. -/
def twoDigits (a b : Char) : Option Nat := do
  let x ← digitVal a
  let y ← digitVal b
  pure (10 * x + y)

/-- Four decimal digits as a number. -/
def fourDigits (a b c d : Char) : Option Nat := do
  let x ← twoDigits a b
  let y ← twoDigits c d
  pure (100 * x + y)

/-- Gregorian leap-year rule. -/
def isLeap (y : Nat) : Bool :=
  (y % 4 = 0 ∧ y % 100 ≠ 0) ∨ y % 400 = 0

/-- Days in month `m` (1-12) of year `y`. -/
def daysInMonth (y m : Nat) : Nat :=
  match m with
  | 2 => if isLeap y then 29 else 28
  | 4 | 6 | 9 | 11 => 30
  | _ => 31

/-- Days of year `y` strictly before month `m` (1-12). -/
def daysBeforeMonth (y m : Nat) : Nat :=
  let feb := if isLeap y then 29 else 28
  match m with
  | 1 => 0
  | 2 => 31
  | 3 => 31 + feb
  | 4 => 62 + feb
  | 5 => 92 + feb
  | 6 => 123 + feb
  | 7 => 153 + feb
  | 8 => 184 + feb
  | 9 => 215 + feb
  | 10 => 245 + feb
  | 11 => 276 + feb
  | _ => 306 + feb

/-- Days in the years `0, 1, …, y-1` of the proleptic Gregorian calendar. -/
def daysFromYearZero (y : Nat) : Nat :=
  365 * y + y / 4 + y / 400 - y / 100

/-- The instant `(y, m, d, hh, mm, ss)` as milliseconds on a fixed linear
epoch scale (the model's timestamp; only ordering and differences matter). -/
def epochMillis (y m d hh mm ss : Nat) : Nat :=
  ((daysFromYearZero y + daysBeforeMonth y m + (d - 1)) * 86400
    + (hh * 3600 + mm * 60 + ss)) * 1000

/-- Models ECMAScript parsing of a `"YYYY-MM-DD"` date-only string: exact
shape, month 1-12, day within the month; `none` models an Invalid Date. -/
def parseDate (s : String) : Option (Nat × Nat × Nat) :=
  match s.toList with
  | [y1, y2, y3, y4, '-', m1, m2, '-', d1, d2] => do
    let y ← fourDigits y1 y2 y3 y4
    let m ← twoDigits m1 m2
    let d ← twoDigits d1 d2
    if 1 ≤ m ∧ m ≤ 12 ∧ 1 ≤ d ∧ d ≤ daysInMonth y m then pure (y, m, d) else none
  | _ => none

/-- Models ECMAScript parsing of the `"HH:MM"` / `"HH:MM:SS"` time part:
hours 0-23, minutes and seconds 0-59; `none` models an Invalid Date. -/
def parseTime (s : String) : Option (Nat × Nat × Nat) :=
  match s.toList with
  | [h1, h2, ':', n1, n2] => do
    let hh ← twoDigits h1 h2
    let mm ← twoDigits n1 n2
    if hh ≤ 23 ∧ mm ≤ 59 then pure (hh, mm, 0) else none
  | [h1, h2, ':', n1, n2, ':', s1, s2] => do
    let hh ← twoDigits h1 h2
    let mm ← twoDigits n1 n2
    let ss ← twoDigits s1 s2
    if hh ≤ 23 ∧ mm ≤ 59 ∧ ss ≤ 59 then pure (hh, mm, ss) else none
  | _ => none

/-- Models `new Date(date + "T" + time)` followed by the `isNaN` check
(notifications.ts lines 73-85): the instant in epoch milliseconds, or `none`
when the combined string does not parse to a valid instant. -/
def parseDateTime (date time : String) : Option Nat := do
  let (y, m, d) ← parseDate date
  let (hh, mm, ss) ← parseTime time
  pure (epochMillis y m d hh mm ss)

/-- Models JS `String.prototype.trim`: strips leading and trailing
whitespace characters from the string. -/
def jsTrim (s : String) : String :=
  String.mk
    (((s.toList.dropWhile Char.isWhitespace).reverse.dropWhile
        Char.isWhitespace).reverse)

/-- JS truthiness of the guard `userName && userName.trim()` followed by
`userName.trim()` / `'User'` (notifications.ts line 99): the sanitized
display name. -/
def sanitizeDisplayName (userName : String) : String :=
  if userName ≠ "" ∧ jsTrim userName ≠ "" then jsTrim userName else "User"

/-- Whether a pending request is bound to `taskId`, i.e. the JS filter
predicate `notification.content.data?.taskId === taskId`. -/
def matchesTask (taskId : String) (n : NotificationRequest) : Bool :=
  n.content.dataTaskId = some taskId

/-- `NotificationService.cancelTaskNotification` (notifications.ts lines
124-137): no-op on web or on a falsy/blank identifier; otherwise one platform
cancel call whose failure is caught.  Result: new pending set and trace. -/
def cancelTaskNotification (p : Platform) (notificationId : String)
    (pending : List NotificationRequest) :
    List NotificationRequest × List PortCall :=
  if p.os = OS.web then
    (pending, [])
  else if notificationId ≠ "" ∧ jsTrim notificationId ≠ "" then
    (if p.cancelThrows notificationId then pending
     else pending.filter (fun n => !decide (n.identifier = notificationId)),
     [PortCall.cancel notificationId])
  else
    (pending, [])

/-- `NotificationService.cancelTaskNotifications` (notifications.ts lines
139-166): no-op on web or on a falsy/blank task id; otherwise lists the
pending requests (a listing failure is caught and aborts silently), filters
those whose `data?.taskId` equals the id, and cancels each one inside its own
try/catch, so one failed cancel does not stop the rest.  Result: new pending
set and trace. -/
def cancelTaskNotifications (p : Platform) (taskId : String)
    (pending : List NotificationRequest) :
    List NotificationRequest × List PortCall :=
  if p.os = OS.web then
    (pending, [])
  else if taskId = "" ∨ jsTrim taskId = "" then
    (pending, [])
  else if p.listThrows then
    (pending, [PortCall.getAllScheduled])
  else
    let taskNotifications := pending.filter (matchesTask taskId)
    (pending.filter (fun n => !(matchesTask taskId n && !p.cancelThrows n.identifier)),
     PortCall.getAllScheduled ::
       taskNotifications.map (fun n => PortCall.cancel n.identifier))

/-- `NotificationService.cancelAllNotifications` (notifications.ts lines
168-179): no-op on web; otherwise one platform cancel-all call whose failure
is caught.  Result: new pending set and trace. -/
def cancelAllNotifications (p : Platform)
    (pending : List NotificationRequest) :
    List NotificationRequest × List PortCall :=
  if p.os = OS.web then
    (pending, [])
  else if p.cancelAllThrows then
    (pending, [PortCall.cancelAll])
  else
    ([], [PortCall.cancelAll])

/-- `NotificationService.getScheduledNotifications` (notifications.ts lines
220-231): empty list on web; otherwise the platform's pending set, or the
empty list when the listing call throws (caught).  Result: returned list and
trace. -/
def getScheduledNotifications (p : Platform)
    (pending : List NotificationRequest) :
    List NotificationRequest × List PortCall :=
  if p.os = OS.web then
    ([], [])
  else if p.listThrows then
    ([], [PortCall.getAllScheduled])
  else
    (pending, [PortCall.getAllScheduled])

/-- `NotificationService.initializeNotifications` (notifications.ts lines
181-218): no-op on web; otherwise requests permission and, whatever the
answer, attaches the tap-response listener; every failure is caught.
Result: the trace of port calls made. -/
def initializeNotifications (p : Platform) : List PortCall :=
  if p.os = OS.web then
    []
  else
    (requestPermissions p).2 ++ [PortCall.addResponseListener]

/-- The notification content `scheduleTaskNotification` builds
(notifications.ts lines 102-110): title with the sanitized display name,
body with the task title, and the `{taskId, taskTitle}` metadata. -/
def scheduledContent (task : Task) (userName : String) : NotificationContent :=
  { title := "Task Reminder for " ++ sanitizeDisplayName userName
    body := "Don't forget: " ++ task.title
    dataTaskId := some task.id
    dataTaskTitle := some task.title }

/-- The pending request the platform records for a successful create call:
the assigned identifier, the built content, and the trigger instant. -/
def scheduledRequest (task : Task) (userName : String) (freshId : String)
    (instant : Nat) : NotificationRequest :=
  { identifier := freshId, content := scheduledContent task userName,
    trigger := instant }

/-- `NotificationService.scheduleTaskNotification` (notifications.ts lines
53-122), in the source's order: web sentinel; `requestPermissions`; the
`!task.date || !task.time || !task.title` validation; date-time parse with
`isNaN` check; the `now + 60000` future buffer; `cancelTaskNotifications`
for the task id; display-name sanitization; the platform create call, whose
failure is caught and yields `null`.  `now` is the clock reading in epoch
milliseconds and `freshId` the identifier the platform would assign.
Result: the returned id (or `none`), the new pending set, and the trace. -/
def scheduleTaskNotification (p : Platform) (now : Nat) (freshId : String)
    (task : Task) (userName : String) (pending : List NotificationRequest) :
    Option String × List NotificationRequest × List PortCall :=
  if p.os = OS.web then
    (none, pending, [])
  else
    let rp := requestPermissions p
    if ¬rp.1 then
      (none, pending, rp.2)
    else if task.date = "" ∨ task.time = "" ∨ task.title = "" then
      (none, pending, rp.2)
    else
      match parseDateTime task.date task.time with
      | none => (none, pending, rp.2)
      | some taskDateTime =>
        if taskDateTime ≤ now + 60000 then
          (none, pending, rp.2)
        else
          let cancelled := cancelTaskNotifications p task.id pending
          let content := scheduledContent task userName
          if p.createThrows then
            (none, cancelled.1,
             rp.2 ++ cancelled.2 ++ [PortCall.create content taskDateTime])
          else
            (some freshId,
             cancelled.1 ++ [scheduledRequest task userName freshId taskDateTime],
             rp.2 ++ cancelled.2 ++ [PortCall.create content taskDateTime])

/-- Whether a port call is the platform creation call
(`scheduleNotificationAsync`). -/
def isCreateCall : PortCall → Bool
  | PortCall.create _ _ => true
  | _ => false

/-- Whether a port call is one of the two permission calls
(`getPermissionsAsync` / `requestPermissionsAsync`). -/
def isPermissionCall : PortCall → Bool
  | PortCall.getPermissions => true
  | PortCall.requestPermission => true
  | _ => false

/-- Spec-side definition for the amended permission contract: the outcome of
the primary permission flow alone — a failed `getPermissionsAsync` or a
failed prompt is fail-closed `false`; otherwise `true` iff the final primary
status is granted.  The best-effort iOS sub-permission request plays no
part in it. -/
def primaryPermissionGranted (p : Platform) : Bool :=
  match p.getPermissionsResult with
  | Except.error _ => false
  | Except.ok existingStatus =>
    if existingStatus ≠ PermStatus.granted then
      match p.requestPermissionsResult with
      | Except.error _ => false
      | Except.ok finalStatus => decide (finalStatus = PermStatus.granted)
    else
      true

/-! Concrete fixtures used to instantiate the universally quantified
theorems below on explicit inputs. -/

/-- An Android host that answers `granted` at once and where no scheduling
call throws. -/
def pGranted : Platform :=
  { os := OS.android
    getPermissionsResult := Except.ok PermStatus.granted
    requestPermissionsResult := Except.ok PermStatus.granted
    iosSubRequestThrows := false
    createThrows := false
    cancelThrows := fun _ => false
    cancelAllThrows := false
    listThrows := false }

/-- An Android host whose user declines the permission prompt. -/
def pDenied : Platform :=
  { os := OS.android
    getPermissionsResult := Except.ok PermStatus.undetermined
    requestPermissionsResult := Except.ok PermStatus.denied
    iosSubRequestThrows := false
    createThrows := false
    cancelThrows := fun _ => false
    cancelAllThrows := false
    listThrows := false }

/-- A web (capability-absent) host. -/
def pWeb : Platform :=
  { os := OS.web
    getPermissionsResult := Except.ok PermStatus.undetermined
    requestPermissionsResult := Except.ok PermStatus.denied
    iosSubRequestThrows := false
    createThrows := false
    cancelThrows := fun _ => false
    cancelAllThrows := false
    listThrows := false }

/-- An iOS host already granted, whose best-effort sub-permission request
throws. -/
def pIosSubThrow : Platform :=
  { os := OS.ios
    getPermissionsResult := Except.ok PermStatus.granted
    requestPermissionsResult := Except.ok PermStatus.granted
    iosSubRequestThrows := true
    createThrows := false
    cancelThrows := fun _ => false
    cancelAllThrows := false
    listThrows := false }

/-- An Android granted host where cancelling notification `"n2"` throws. -/
def pCancelFailN2 : Platform :=
  { os := OS.android
    getPermissionsResult := Except.ok PermStatus.granted
    requestPermissionsResult := Except.ok PermStatus.granted
    iosSubRequestThrows := false
    createThrows := false
    cancelThrows := fun s => decide (s = "n2")
    cancelAllThrows := false
    listThrows := false }

/-- The spec's end-to-end scenario task. -/
def taskBuyMilk : Task :=
  { id := "t1", title := "Buy milk", date := "2030-01-01", time := "09:00" }

/-- A task identical to the scenario task but with an empty identity. -/
def taskNoId : Task :=
  { id := "", title := "Buy milk", date := "2030-01-01", time := "09:00" }

/-- A task identical to the scenario task but with an empty title. -/
def taskNoTitle : Task :=
  { id := "t1", title := "", date := "2030-01-01", time := "09:00" }

/-- A pending reminder bound to task `"t1"` with identifier `"n1"`. -/
def reqN1 : NotificationRequest :=
  { identifier := "n1"
    content := { title := "a", body := "b", dataTaskId := some "t1",
                 dataTaskTitle := some "x" }
    trigger := 1000 }

/-- A pending reminder bound to task `"t1"` with identifier `"n2"`. -/
def reqN2 : NotificationRequest :=
  { identifier := "n2"
    content := { title := "c", body := "d", dataTaskId := some "t1",
                 dataTaskTitle := some "y" }
    trigger := 2000 }

/-- A pending reminder bound to task `"t1"` with identifier `"n3"`. -/
def reqN3 : NotificationRequest :=
  { identifier := "n3"
    content := { title := "e", body := "f", dataTaskId := some "t1",
                 dataTaskTitle := some "z" }
    trigger := 3000 }

/-- A pending reminder bound to a different task `"t9"`. -/
def reqOther : NotificationRequest :=
  { identifier := "n9"
    content := { title := "g", body := "h", dataTaskId := some "t9",
                 dataTaskTitle := some "w" }
    trigger := 4000 }

/-! Helper lemmas shared by the claim theorems. -/

/-- On web, `requestPermissions` returns `true` with no port call. -/
theorem requestPermissions_web (p : Platform) (h : p.os = OS.web) :
    requestPermissions p = (true, []) := by
  simp [requestPermissions, h]

/-- `requestPermissions` only issues the two permission calls. -/
theorem requestPermissions_only_permission_calls (p : Platform) :
    ∀ c ∈ (requestPermissions p).2, isPermissionCall c = true := by
  intro c hc
  have hcc : c = PortCall.getPermissions ∨ c = PortCall.requestPermission := by
    unfold requestPermissions at hc
    repeat' split at hc
    all_goals simp_all
  rcases hcc with rfl | rfl <;> rfl

/-- A permission call is not the creation call. -/
theorem isPermissionCall_not_create (c : PortCall)
    (h : isPermissionCall c = true) : isCreateCall c = false := by
  cases c <;> simp_all [isPermissionCall, isCreateCall]

/-- `cancelTaskNotifications` never issues the creation call. -/
theorem cancelTaskNotifications_no_create (p : Platform) (taskId : String)
    (pending : List NotificationRequest) :
    ∀ c ∈ (cancelTaskNotifications p taskId pending).2, isCreateCall c = false := by
  intro c hc
  have hcc : c = PortCall.getAllScheduled ∨ ∃ s, c = PortCall.cancel s := by
    unfold cancelTaskNotifications at hc
    repeat' split at hc
    all_goals try simp_all
    all_goals aesop
  rcases hcc with rfl | ⟨s, rfl⟩ <;> rfl

/-- If the permission boolean is `false`, the host is not web. -/
theorem os_ne_web_of_perm_false (p : Platform)
    (hp : (requestPermissions p).1 = false) : p.os ≠ OS.web := by
  intro h
  rw [requestPermissions_web p h] at hp
  simp at hp

/-- `scheduleTaskNotification` when the permission boolean is `false`:
returns `null`, leaves the pending set unchanged, and the trace is exactly
the permission calls. -/
theorem schedule_of_perm_false (p : Platform) (now : Nat) (freshId : String)
    (task : Task) (userName : String) (pending : List NotificationRequest)
    (hp : (requestPermissions p).1 = false) :
    scheduleTaskNotification p now freshId task userName pending
      = (none, pending, (requestPermissions p).2) := by
  have hweb := os_ne_web_of_perm_false p hp
  simp [scheduleTaskNotification, hweb, hp]

/-- `scheduleTaskNotification` on an invalid task (empty date, time or title,
or unparsable date+time), once permission came back `true`: returns `null`,
leaves the pending set unchanged, trace exactly the permission calls. -/
theorem schedule_of_invalid (p : Platform) (now : Nat) (freshId : String)
    (task : Task) (userName : String) (pending : List NotificationRequest)
    (hweb : p.os ≠ OS.web) (hp : (requestPermissions p).1 = true)
    (h : task.date = "" ∨ task.time = "" ∨ task.title = ""
       ∨ parseDateTime task.date task.time = none) :
    scheduleTaskNotification p now freshId task userName pending
      = (none, pending, (requestPermissions p).2) := by
  by_cases hg : task.date = "" ∨ task.time = "" ∨ task.title = ""
  · simp [scheduleTaskNotification, hweb, hp, hg]
  · have hparse : parseDateTime task.date task.time = none := by tauto
    simp [scheduleTaskNotification, hweb, hp, hg, hparse]

/-- `scheduleTaskNotification` on a valid task that is not strictly beyond
the 60-second buffer, once permission came back `true`: returns `null`,
leaves the pending set unchanged, trace exactly the permission calls. -/
theorem schedule_of_too_soon (p : Platform) (now : Nat) (freshId : String)
    (task : Task) (userName : String) (pending : List NotificationRequest)
    (hweb : p.os ≠ OS.web) (hp : (requestPermissions p).1 = true)
    (instant : Nat) (hparse : parseDateTime task.date task.time = some instant)
    (hle : instant ≤ now + 60000) :
    scheduleTaskNotification p now freshId task userName pending
      = (none, pending, (requestPermissions p).2) := by
  by_cases hg : task.date = "" ∨ task.time = "" ∨ task.title = ""
  · simp [scheduleTaskNotification, hweb, hp, hg]
  · simp [scheduleTaskNotification, hweb, hp, hg, hparse, hle]

/-- Anatomy of a `scheduleTaskNotification` call that reaches the
cancel-and-create steps: the result, new pending set, and trace, with the
create outcome depending on whether the platform's create call throws. -/
theorem schedule_of_success (p : Platform) (now : Nat) (freshId : String)
    (task : Task) (userName : String) (pending : List NotificationRequest)
    (hweb : p.os ≠ OS.web) (hp : (requestPermissions p).1 = true)
    (hd : task.date ≠ "") (ht : task.time ≠ "") (htitle : task.title ≠ "")
    (instant : Nat) (hparse : parseDateTime task.date task.time = some instant)
    (hfut : ¬instant ≤ now + 60000) :
    scheduleTaskNotification p now freshId task userName pending
      = ((if p.createThrows then none else some freshId),
         (cancelTaskNotifications p task.id pending).1
           ++ (if p.createThrows then []
               else [scheduledRequest task userName freshId instant]),
         (requestPermissions p).2
           ++ (cancelTaskNotifications p task.id pending).2
           ++ [PortCall.create (scheduledContent task userName) instant]) := by
  by_cases hthrow : p.createThrows <;>
    simp [scheduleTaskNotification, hweb, hp, hd, ht, htitle, hparse, hfut, hthrow]

/-! The claims. -/

/-- C5: on a capability-absent platform (`Platform.OS === 'web'`), every
public operation — schedule, cancelOne, cancelForTask, cancelAll,
listScheduled, initialize — returns its sentinel (null, empty sequence, or
completes silently) without making any Platform Scheduling Port call. -/
theorem C5_web_noop (p : Platform) (hweb : p.os = OS.web)
    (now : Nat) (freshId : String) (task : Task) (userName : String)
    (pending : List NotificationRequest) (notificationId taskId : String) :
    scheduleTaskNotification p now freshId task userName pending
        = (none, pending, [])
      ∧ cancelTaskNotification p notificationId pending = (pending, [])
      ∧ cancelTaskNotifications p taskId pending = (pending, [])
      ∧ cancelAllNotifications p pending = (pending, [])
      ∧ getScheduledNotifications p pending = ([], [])
      ∧ initializeNotifications p = [] := by
  refine ⟨?_, ?_, ?_, ?_, ?_, ?_⟩ <;>
    simp [scheduleTaskNotification, cancelTaskNotification,
          cancelTaskNotifications, cancelAllNotifications,
          getScheduledNotifications, initializeNotifications, hweb]

/-- Witness for C5 on explicit inputs: the web host with the scenario task
and a sample pending set. -/
theorem C5_web_noop_witness :
    scheduleTaskNotification pWeb 0 "n1" taskBuyMilk "Alex" [reqN1]
        = (none, [reqN1], [])
      ∧ cancelTaskNotification pWeb "n1" [reqN1] = ([reqN1], [])
      ∧ cancelTaskNotifications pWeb "t1" [reqN1] = ([reqN1], [])
      ∧ cancelAllNotifications pWeb [reqN1] = ([reqN1], [])
      ∧ getScheduledNotifications pWeb [reqN1] = ([], [])
      ∧ initializeNotifications pWeb = [] :=
  C5_web_noop pWeb rfl 0 "n1" taskBuyMilk "Alex" [reqN1] "n1" "t1"

/-- C1 counterexample: the claim fails on the code in two ways.  First, task
identity is not validated: a task with empty `id` (otherwise valid and
future-dated) is scheduled and `schedule` returns the platform identity, not
null.  Second, an invalid task (empty title) still triggers the permission
query, because `requestPermissions` is called before validation: the trace
is not empty. -/
theorem C1_validity_gate_counterexample :
    (scheduleTaskNotification pGranted 0 "n1" taskNoId "Alex" []).1 = some "n1"
      ∧ (scheduleTaskNotification pDenied 0 "n1" taskNoTitle "Alex" []).2.2
          = [PortCall.getPermissions, PortCall.requestPermission] := by
  exact ⟨rfl, rfl⟩

/-- C1 (amended): for every task with empty date, time, or title, or whose
date+time does not parse to a valid instant, `schedule` returns null, leaves
the platform pending set unchanged, and issues only permission calls on the
Platform Scheduling Port (no create, cancel, or list call).  The amendment:
the code does not validate the task identity at all, and it calls
`requestPermissions` before validating, so an invalid task still triggers a
permission query. -/
theorem C1_validity_gate_amended (p : Platform) (now : Nat) (freshId : String)
    (task : Task) (userName : String) (pending : List NotificationRequest)
    (h : task.date = "" ∨ task.time = "" ∨ task.title = ""
       ∨ parseDateTime task.date task.time = none) :
    (scheduleTaskNotification p now freshId task userName pending).1 = none
      ∧ (scheduleTaskNotification p now freshId task userName pending).2.1
          = pending
      ∧ ∀ c ∈ (scheduleTaskNotification p now freshId task userName pending).2.2,
          isPermissionCall c = true := by
  by_cases hweb : p.os = OS.web
  · simp [scheduleTaskNotification, hweb]
  · by_cases hp : (requestPermissions p).1 = true
    · rw [schedule_of_invalid p now freshId task userName pending hweb hp h]
      exact ⟨rfl, rfl, requestPermissions_only_permission_calls p⟩
    · rw [schedule_of_perm_false p now freshId task userName pending
        (by simp_all)]
      exact ⟨rfl, rfl, requestPermissions_only_permission_calls p⟩

/-- Witness for the amended C1: the empty-title task on the granted Android
host. -/
theorem C1_validity_gate_amended_witness :
    (scheduleTaskNotification pGranted 0 "n1" taskNoTitle "Alex" []).1 = none
      ∧ (scheduleTaskNotification pGranted 0 "n1" taskNoTitle "Alex" []).2.1
          = []
      ∧ ∀ c ∈ (scheduleTaskNotification pGranted 0 "n1" taskNoTitle "Alex" []).2.2,
          isPermissionCall c = true :=
  C1_validity_gate_amended pGranted 0 "n1" taskNoTitle "Alex" []
    (Or.inr (Or.inr (Or.inl rfl)))

/-- C3: for every valid task, if the computed instant is at most
`now + 60000` milliseconds, `schedule` returns null, leaves the pending set
unchanged and issues no creation call; if it is strictly greater (and the
permission boolean is true, on a capability-present host, with a
non-throwing create call) scheduling proceeds to the cancel-and-create
steps: the trace ends with the creation call and the platform identity is
returned. -/
theorem C3_temporal_gate (p : Platform) (now : Nat) (freshId : String)
    (task : Task) (userName : String) (pending : List NotificationRequest)
    (instant : Nat) (htitle : task.title ≠ "")
    (hparse : parseDateTime task.date task.time = some instant) :
    (instant ≤ now + 60000 →
      (scheduleTaskNotification p now freshId task userName pending).1 = none
        ∧ (scheduleTaskNotification p now freshId task userName pending).2.1
            = pending
        ∧ ∀ c ∈ (scheduleTaskNotification p now freshId task userName pending).2.2,
            isCreateCall c = false)
      ∧ (now + 60000 < instant → p.os ≠ OS.web
          → (requestPermissions p).1 = true → p.createThrows = false →
        (scheduleTaskNotification p now freshId task userName pending).1
            = some freshId
          ∧ (scheduleTaskNotification p now freshId task userName pending).2.2
              = (requestPermissions p).2
                ++ (cancelTaskNotifications p task.id pending).2
                ++ [PortCall.create (scheduledContent task userName) instant]) := by
  have hd : task.date ≠ "" := by
    intro hh
    rw [hh] at hparse
    simp [parseDateTime, parseDate] at hparse
  have ht : task.time ≠ "" := by
    intro hh
    rw [hh] at hparse
    simp [parseDateTime, parseTime] at hparse
  constructor
  · intro hle
    by_cases hweb : p.os = OS.web
    · simp [scheduleTaskNotification, hweb]
    · by_cases hp : (requestPermissions p).1 = true
      · rw [schedule_of_too_soon p now freshId task userName pending hweb hp
          instant hparse hle]
        refine ⟨rfl, rfl, fun c hc => isPermissionCall_not_create c ?_⟩
        exact requestPermissions_only_permission_calls p c hc
      · rw [schedule_of_perm_false p now freshId task userName pending
          (by simp_all)]
        refine ⟨rfl, rfl, fun c hc => isPermissionCall_not_create c ?_⟩
        exact requestPermissions_only_permission_calls p c hc
  · intro hgt hweb hp hthrow
    rw [schedule_of_success p now freshId task userName pending hweb hp
      hd ht htitle instant hparse (by omega)]
    simp [hthrow]

/-- Witness for C3: the scenario task; with `now` huge the instant fails the
buffer, with `now = 0` it passes and the create call is issued. -/
theorem C3_temporal_gate_witness :
    (64060621200000 ≤ 64060621200000 + 60000 →
      (scheduleTaskNotification pGranted 64060621200000 "n1" taskBuyMilk "Alex" []).1
          = none
        ∧ (scheduleTaskNotification pGranted 64060621200000 "n1" taskBuyMilk
              "Alex" []).2.1 = []
        ∧ ∀ c ∈ (scheduleTaskNotification pGranted 64060621200000 "n1"
              taskBuyMilk "Alex" []).2.2, isCreateCall c = false)
      ∧ (64060621200000 + 60000 < 64060621200000 → pGranted.os ≠ OS.web
          → (requestPermissions pGranted).1 = true → pGranted.createThrows = false →
        (scheduleTaskNotification pGranted 64060621200000 "n1" taskBuyMilk
            "Alex" []).1 = some "n1"
          ∧ (scheduleTaskNotification pGranted 64060621200000 "n1" taskBuyMilk
              "Alex" []).2.2
              = (requestPermissions pGranted).2
                ++ (cancelTaskNotifications pGranted taskBuyMilk.id []).2
                ++ [PortCall.create (scheduledContent taskBuyMilk "Alex")
                      64060621200000]) :=
  C3_temporal_gate pGranted 64060621200000 "n1" taskBuyMilk "Alex" []
    64060621200000 (by decide) (by rfl)

/-- C4: if `requestPermissions` resolves `false`, `schedule` returns null
with the pending set unchanged and no creation call in its trace;
`getScheduledNotifications`, `cancelTaskNotifications` and
`cancelAllNotifications` are not permission-gated: their results are
invariant under any change of the platform's permission behaviour (the host
`q` agrees with `p` on everything except the permission call results), and
they still issue their platform calls. -/
theorem C4_permission_gating (p q : Platform)
    (now : Nat) (freshId : String) (task : Task) (userName : String)
    (pending : List NotificationRequest) (taskId : String)
    (hp : (requestPermissions p).1 = false)
    (hos : q.os = p.os) (hcanc : q.cancelThrows = p.cancelThrows)
    (hcancAll : q.cancelAllThrows = p.cancelAllThrows)
    (hlist : q.listThrows = p.listThrows) :
    scheduleTaskNotification p now freshId task userName pending
        = (none, pending, (requestPermissions p).2)
      ∧ (∀ c ∈ (requestPermissions p).2, isCreateCall c = false)
      ∧ cancelTaskNotifications q taskId pending
          = cancelTaskNotifications p taskId pending
      ∧ cancelAllNotifications q pending = cancelAllNotifications p pending
      ∧ getScheduledNotifications q pending = getScheduledNotifications p pending
      ∧ (getScheduledNotifications p pending).2 = [PortCall.getAllScheduled]
      ∧ (cancelAllNotifications p pending).2 = [PortCall.cancelAll]
      ∧ (taskId ≠ "" → jsTrim taskId ≠ "" →
          PortCall.getAllScheduled ∈ (cancelTaskNotifications p taskId pending).2) := by
  have hweb := os_ne_web_of_perm_false p hp
  have hwebq : ¬q.os = OS.web := by rw [hos]; exact hweb
  refine ⟨schedule_of_perm_false p now freshId task userName pending hp,
    fun c hc => isPermissionCall_not_create c
      (requestPermissions_only_permission_calls p c hc), ?_, ?_, ?_, ?_, ?_, ?_⟩
  · simp only [cancelTaskNotifications, hos, hcanc, hlist]
  · simp only [cancelAllNotifications, hos, hcancAll]
  · simp only [getScheduledNotifications, hos, hlist]
  · by_cases hl : p.listThrows <;> simp [getScheduledNotifications, hweb, hl]
  · by_cases hca : p.cancelAllThrows <;> simp [cancelAllNotifications, hweb, hca]
  · intro h1 h2
    by_cases hl : p.listThrows <;>
      simp [cancelTaskNotifications, hweb, h1, h2, hl]

/-- Witness for C4: the denied Android host against the granted one, which
differ only in their permission answers. -/
theorem C4_permission_gating_witness :
    scheduleTaskNotification pDenied 0 "n1" taskBuyMilk "Alex" [reqN1]
        = (none, [reqN1], (requestPermissions pDenied).2)
      ∧ (∀ c ∈ (requestPermissions pDenied).2, isCreateCall c = false)
      ∧ cancelTaskNotifications pGranted "t1" [reqN1]
          = cancelTaskNotifications pDenied "t1" [reqN1]
      ∧ cancelAllNotifications pGranted [reqN1]
          = cancelAllNotifications pDenied [reqN1]
      ∧ getScheduledNotifications pGranted [reqN1]
          = getScheduledNotifications pDenied [reqN1]
      ∧ (getScheduledNotifications pDenied [reqN1]).2 = [PortCall.getAllScheduled]
      ∧ (cancelAllNotifications pDenied [reqN1]).2 = [PortCall.cancelAll]
      ∧ ("t1" ≠ "" → jsTrim "t1" ≠ "" →
          PortCall.getAllScheduled ∈ (cancelTaskNotifications pDenied "t1" [reqN1]).2) :=
  C4_permission_gating pDenied pGranted 0 "n1" taskBuyMilk "Alex" [reqN1] "t1"
    rfl rfl rfl rfl rfl

/-- C6: for a valid future task with granted permission and a non-throwing
platform, `schedule` issues exactly one create call, whose content carries
the title `"Task Reminder for {displayName}"` (with the sanitized display
name), the body `"Don't forget: {task.title}"`, the `{taskId, taskTitle}`
metadata and the task's instant as trigger, and returns the
platform-assigned identity; an empty or whitespace-only display name falls
back to `"User"`. -/
theorem C6_end_to_end (p : Platform) (now : Nat) (freshId : String)
    (task : Task) (userName : String) (pending : List NotificationRequest)
    (hweb : p.os ≠ OS.web) (hp : (requestPermissions p).1 = true)
    (hthrow : p.createThrows = false)
    (htitle : task.title ≠ "") (instant : Nat)
    (hparse : parseDateTime task.date task.time = some instant)
    (hfut : now + 60000 < instant) :
    (scheduleTaskNotification p now freshId task userName pending).1
        = some freshId
      ∧ ((scheduleTaskNotification p now freshId task userName pending).2.2).filter
            isCreateCall
          = [PortCall.create
              { title := "Task Reminder for " ++ sanitizeDisplayName userName
                body := "Don't forget: " ++ task.title
                dataTaskId := some task.id
                dataTaskTitle := some task.title } instant]
      ∧ (jsTrim userName = "" → sanitizeDisplayName userName = "User")
      ∧ (jsTrim userName ≠ "" → sanitizeDisplayName userName = jsTrim userName) := by
  have hd : task.date ≠ "" := by
    intro hh
    rw [hh] at hparse
    simp [parseDateTime, parseDate] at hparse
  have ht : task.time ≠ "" := by
    intro hh
    rw [hh] at hparse
    simp [parseDateTime, parseTime] at hparse
  rw [schedule_of_success p now freshId task userName pending hweb hp hd ht
    htitle instant hparse (by omega)]
  have hperm : ((requestPermissions p).2).filter isCreateCall = [] := by
    rw [List.filter_eq_nil_iff]
    intro c hc
    simp [isPermissionCall_not_create c
      (requestPermissions_only_permission_calls p c hc)]
  have hcanc : ((cancelTaskNotifications p task.id pending).2).filter
      isCreateCall = [] := by
    rw [List.filter_eq_nil_iff]
    intro c hc
    simp [cancelTaskNotifications_no_create p task.id pending c hc]
  refine ⟨by simp [hthrow], ?_, ?_, ?_⟩
  · simp [hthrow, List.filter_append, hperm, hcanc, isCreateCall,
      scheduledContent]
  · intro h
    simp [sanitizeDisplayName, h]
  · intro h
    have hne : userName ≠ "" := by
      intro hh
      rw [hh] at h
      exact h rfl
    simp [sanitizeDisplayName, h, hne]

/-- Witness for C6: the spec's end-to-end scenario — task
`{id: "t1", title: "Buy milk", date: "2030-01-01", time: "09:00"}`, display
name `"Alex"`, granted permission, empty pending set. -/
theorem C6_end_to_end_witness :
    (scheduleTaskNotification pGranted 0 "n1" taskBuyMilk "Alex" []).1
        = some "n1"
      ∧ ((scheduleTaskNotification pGranted 0 "n1" taskBuyMilk "Alex" []).2.2).filter
            isCreateCall
          = [PortCall.create
              { title := "Task Reminder for Alex"
                body := "Don't forget: Buy milk"
                dataTaskId := some "t1"
                dataTaskTitle := some "Buy milk" } 64060621200000]
      ∧ (jsTrim "Alex" = "" → sanitizeDisplayName "Alex" = "User")
      ∧ (jsTrim "Alex" ≠ "" → sanitizeDisplayName "Alex" = jsTrim "Alex") :=
  C6_end_to_end pGranted 0 "n1" taskBuyMilk "Alex" [] (by decide) rfl rfl
    (by decide) 64060621200000 rfl (by decide)

/-- C9: for every display name that is non-empty after trimming, the created
reminder's title uses the whitespace-trimmed name, not the raw argument. -/
theorem C9_display_name_trimmed (p : Platform) (now : Nat) (freshId : String)
    (task : Task) (userName : String) (pending : List NotificationRequest)
    (hweb : p.os ≠ OS.web) (hp : (requestPermissions p).1 = true)
    (htitle : task.title ≠ "") (instant : Nat)
    (hparse : parseDateTime task.date task.time = some instant)
    (hfut : now + 60000 < instant) (huser : jsTrim userName ≠ "") :
    ((scheduleTaskNotification p now freshId task userName pending).2.2).filter
        isCreateCall
      = [PortCall.create
          { title := "Task Reminder for " ++ jsTrim userName
            body := "Don't forget: " ++ task.title
            dataTaskId := some task.id
            dataTaskTitle := some task.title } instant] := by
  have hd : task.date ≠ "" := by
    intro hh
    rw [hh] at hparse
    simp [parseDateTime, parseDate] at hparse
  have ht : task.time ≠ "" := by
    intro hh
    rw [hh] at hparse
    simp [parseDateTime, parseTime] at hparse
  have hne : userName ≠ "" := by
    intro hh
    rw [hh] at huser
    exact huser rfl
  rw [schedule_of_success p now freshId task userName pending hweb hp hd ht
    htitle instant hparse (by omega)]
  have hperm : ((requestPermissions p).2).filter isCreateCall = [] := by
    rw [List.filter_eq_nil_iff]
    intro c hc
    simp [isPermissionCall_not_create c
      (requestPermissions_only_permission_calls p c hc)]
  have hcanc : ((cancelTaskNotifications p task.id pending).2).filter
      isCreateCall = [] := by
    rw [List.filter_eq_nil_iff]
    intro c hc
    simp [cancelTaskNotifications_no_create p task.id pending c hc]
  simp [List.filter_append, hperm, hcanc, isCreateCall,
    scheduledContent, sanitizeDisplayName, huser, hne]

/-- Witness for C9: scheduling with display name `" Alex "` produces the
title `"Task Reminder for Alex"`. -/
theorem C9_display_name_trimmed_witness :
    ((scheduleTaskNotification pGranted 0 "n1" taskBuyMilk " Alex " []).2.2).filter
        isCreateCall
      = [PortCall.create
          { title := "Task Reminder for Alex"
            body := "Don't forget: Buy milk"
            dataTaskId := some "t1"
            dataTaskTitle := some "Buy milk" } 64060621200000] :=
  C9_display_name_trimmed pGranted 0 "n1" taskBuyMilk " Alex " [] (by decide)
    rfl (by decide) 64060621200000 rfl (by decide) (by decide)

/-- C7: a platform cancellation failure on one candidate does not abort
`cancelTaskNotifications`: every pending reminder bound to the task identity
receives its own cancel call in the trace, whatever the per-identifier
failure behaviour, and every candidate whose cancel call does not throw is
removed from the pending set; no failure propagates (the operation is a
total function into its result). -/
theorem C7_partial_cancellation (p : Platform) (taskId : String)
    (pending : List NotificationRequest)
    (hweb : p.os ≠ OS.web) (h1 : taskId ≠ "") (h2 : jsTrim taskId ≠ "")
    (hlist : p.listThrows = false) :
    (∀ n ∈ pending, matchesTask taskId n = true →
        PortCall.cancel n.identifier ∈ (cancelTaskNotifications p taskId pending).2)
      ∧ (∀ n ∈ pending, matchesTask taskId n = true →
          p.cancelThrows n.identifier = false →
          n ∉ (cancelTaskNotifications p taskId pending).1) := by
  have heq : cancelTaskNotifications p taskId pending
      = (pending.filter
           (fun n => !(matchesTask taskId n && !p.cancelThrows n.identifier)),
         PortCall.getAllScheduled ::
           (pending.filter (matchesTask taskId)).map
             (fun n => PortCall.cancel n.identifier)) := by
    simp [cancelTaskNotifications, hweb, h1, h2, hlist]
  rw [heq]
  constructor
  · intro n hn hm
    refine List.mem_cons.mpr (Or.inr ?_)
    exact List.mem_map.mpr ⟨n, List.mem_filter.mpr ⟨hn, hm⟩, rfl⟩
  · intro n hn hm hthr hmem
    have hpred := (List.mem_filter.mp hmem).2
    simp [hm, hthr] at hpred

/-- Witness for C7: three pending reminders for task `"t1"` where cancelling
the second (`"n2"`) throws — all three are attempted and the first and third
are removed. -/
theorem C7_partial_cancellation_witness :
    (∀ n ∈ [reqN1, reqN2, reqN3], matchesTask "t1" n = true →
        PortCall.cancel n.identifier
          ∈ (cancelTaskNotifications pCancelFailN2 "t1" [reqN1, reqN2, reqN3]).2)
      ∧ (∀ n ∈ [reqN1, reqN2, reqN3], matchesTask "t1" n = true →
          pCancelFailN2.cancelThrows n.identifier = false →
          n ∉ (cancelTaskNotifications pCancelFailN2 "t1" [reqN1, reqN2, reqN3]).1) :=
  C7_partial_cancellation pCancelFailN2 "t1" [reqN1, reqN2, reqN3] (by decide)
    (by decide) (by decide) rfl

/-- C10: `cancelTaskNotifications` never touches reminders of other tasks:
a pending reminder whose `metadata.taskId` differs from the given identity
stays pending and no cancel call is issued for its identifier (pending
identifiers assumed distinct, as the platform assigns them). -/
theorem C10_cancel_frame (p : Platform) (taskId : String)
    (pending : List NotificationRequest) (n : NotificationRequest)
    (hn : n ∈ pending) (hdiff : n.content.dataTaskId ≠ some taskId)
    (hnodup : (pending.map (fun r => r.identifier)).Nodup) :
    n ∈ (cancelTaskNotifications p taskId pending).1
      ∧ PortCall.cancel n.identifier ∉ (cancelTaskNotifications p taskId pending).2 := by
  have hm : matchesTask taskId n = false := by simp [matchesTask, hdiff]
  by_cases hw : p.os = OS.web
  · refine ⟨?_, ?_⟩ <;> simp [cancelTaskNotifications, hw, hn]
  · by_cases hid : taskId = "" ∨ jsTrim taskId = ""
    · refine ⟨?_, ?_⟩ <;> simp [cancelTaskNotifications, hw, hid, hn]
    · by_cases hl : p.listThrows
      · refine ⟨?_, ?_⟩ <;> simp [cancelTaskNotifications, hw, hid, hl, hn]
      · have heq : cancelTaskNotifications p taskId pending
            = (pending.filter
                 (fun r => !(matchesTask taskId r && !p.cancelThrows r.identifier)),
               PortCall.getAllScheduled ::
                 (pending.filter (matchesTask taskId)).map
                   (fun r => PortCall.cancel r.identifier)) := by
          simp [cancelTaskNotifications, hw, hid, hl]
        rw [heq]
        constructor
        · exact List.mem_filter.mpr ⟨hn, by simp [hm]⟩
        · intro hmem
          rcases List.mem_cons.mp hmem with h | h
          · simp at h
          · obtain ⟨m, hmf, hidm⟩ := List.mem_map.mp h
            have hmm := List.mem_filter.mp hmf
            have hple : m.identifier = n.identifier := by
              injection hidm
            have hmn : m = n :=
              List.inj_on_of_nodup_map hnodup hmm.1 hn hple
            rw [hmn] at hmm
            rw [hmm.2] at hm
            exact Bool.false_ne_true hm.symm

/-- Witness for C10: with reminders for `"t1"` and `"t9"` pending, cancelling
for `"t1"` leaves the `"t9"` reminder untouched. -/
theorem C10_cancel_frame_witness :
    reqOther ∈ (cancelTaskNotifications pGranted "t1" [reqN1, reqOther]).1
      ∧ PortCall.cancel reqOther.identifier
          ∉ (cancelTaskNotifications pGranted "t1" [reqN1, reqOther]).2 :=
  C10_cancel_frame pGranted "t1" [reqN1, reqOther] reqOther (by decide)
    (by decide) (by decide)

/-- C2: after two successive sequential `schedule` calls for the same task
identity — both passing the validity, permission and temporal gates, on a
platform whose cancel, create and list calls succeed — exactly one pending
reminder carries that identity in its `metadata.taskId`, and it is the one
created from the second call's parameters, because `schedule` cancels all
prior reminders for the identity before creating the new one. -/
theorem C2_uniqueness (p : Platform) (now1 now2 : Nat) (fresh1 fresh2 : String)
    (task1 task2 : Task) (user1 user2 : String)
    (pending : List NotificationRequest)
    (hweb : p.os ≠ OS.web) (hp : (requestPermissions p).1 = true)
    (hthrow : p.createThrows = false) (hlist : p.listThrows = false)
    (hcanc : ∀ s, p.cancelThrows s = false)
    (hid : task1.id = task2.id) (hid1 : task2.id ≠ "")
    (hid2 : jsTrim task2.id ≠ "")
    (ht1 : task1.title ≠ "") (ht2 : task2.title ≠ "")
    (i1 i2 : Nat) (hp1 : parseDateTime task1.date task1.time = some i1)
    (hp2 : parseDateTime task2.date task2.time = some i2)
    (hf1 : now1 + 60000 < i1) (hf2 : now2 + 60000 < i2) :
    ((scheduleTaskNotification p now2 fresh2 task2 user2
        ((scheduleTaskNotification p now1 fresh1 task1 user1 pending).2.1)).2.1).filter
        (matchesTask task2.id)
      = [scheduledRequest task2 user2 fresh2 i2] := by
  have hd2 : task2.date ≠ "" := by
    intro hh
    rw [hh] at hp2
    simp [parseDateTime, parseDate] at hp2
  have htt2 : task2.time ≠ "" := by
    intro hh
    rw [hh] at hp2
    simp [parseDateTime, parseTime] at hp2
  rw [schedule_of_success p now2 fresh2 task2 user2
    ((scheduleTaskNotification p now1 fresh1 task1 user1 pending).2.1)
    hweb hp hd2 htt2 ht2 i2 hp2 (by omega)]
  have heq : (cancelTaskNotifications p task2.id
        ((scheduleTaskNotification p now1 fresh1 task1 user1 pending).2.1)).1
      = ((scheduleTaskNotification p now1 fresh1 task1 user1 pending).2.1).filter
          (fun n => !matchesTask task2.id n) := by
    simp [cancelTaskNotifications, hweb, hid1, hid2, hlist, hcanc]
  simp only [hthrow, Bool.false_eq_true, if_false]
  rw [heq, List.filter_append, List.filter_filter]
  simp [matchesTask, scheduledRequest, scheduledContent]

/-- Witness for C2: the scenario task scheduled twice in a row (second call
with display name `"Bob"` and a fresh identifier) starting from an empty
pending set. -/
theorem C2_uniqueness_witness :
    ((scheduleTaskNotification pGranted 1 "n2" taskBuyMilk "Bob"
        ((scheduleTaskNotification pGranted 0 "n1" taskBuyMilk "Alex" []).2.1)).2.1).filter
        (matchesTask taskBuyMilk.id)
      = [scheduledRequest taskBuyMilk "Bob" "n2" 64060621200000] :=
  C2_uniqueness pGranted 0 1 "n1" "n2" taskBuyMilk taskBuyMilk "Alex" "Bob" []
    (by decide) rfl rfl rfl (fun _ => rfl) rfl (by decide) (by decide)
    (by decide) (by decide) 64060621200000 64060621200000 rfl rfl
    (by decide) (by decide)

/-- C8 counterexample: the claim that any underlying permission-call failure
yields `false` is refuted by the best-effort iOS sub-permission request: on
an iOS host already granted, that request is issued (second entry of the
trace) and throws, yet `requestPermissions` still resolves `true`. -/
theorem C8_requestPermissions_counterexample :
    pIosSubThrow.iosSubRequestThrows = true
      ∧ requestPermissions pIosSubThrow
          = (true, [PortCall.getPermissions, PortCall.requestPermission]) := by
  exact ⟨rfl, rfl⟩

/-- C8 (amended): `requestPermissions` is a total function into `Bool` (it
never throws to its caller), and its result equals: `true` on the
capability-absent platform, and otherwise the outcome of the primary
permission flow — failures of the primary `getPermissionsAsync` /
`requestPermissionsAsync` calls are fail-closed `false`, the best-effort iOS
sub-permission request's failure is swallowed and does not affect the
result, and in the non-failing case the result is `true` iff the final
primary status is granted. -/
theorem C8_requestPermissions_amended (p : Platform) :
    (requestPermissions p).1
      = (decide (p.os = OS.web) || primaryPermissionGranted p) := by
  unfold requestPermissions primaryPermissionGranted
  by_cases hw : p.os = OS.web
  · simp [hw]
  · cases hg : p.getPermissionsResult with
    | error e => simp [hw]
    | ok existingStatus =>
      by_cases he : existingStatus = PermStatus.granted
      · by_cases hi : p.os = OS.ios <;> simp [hw, he, hi]
      · cases hr : p.requestPermissionsResult with
        | error e => simp [hw, he]
        | ok finalStatus =>
          by_cases hfs : finalStatus = PermStatus.granted <;>
            by_cases hi : p.os = OS.ios <;> simp [hw, he, hi, hfs]

end ToDo
